import Mathlib

/-
Shallow embedding of the session-scoped RAG pipeline of the repository
(services/vectorstore_service.py, services/document_service.py,
services/retrieval_service.py, services/rag_service.py, chains/rag_chain.py,
models/llm_factory.py, main.py).

Stateful Python objects are embedded as explicit state values; methods become
functions from state to (new state, result).  Calls into the Chroma / langchain
libraries are modelled by explicit Lean functions whose doc comments say which
library behaviour they stand for; everything else is translated directly from
the Python source.
-/

namespace RagApp

/-- A langchain Document: page content plus metadata (modelled as an
association list of string pairs). -/
structure Document where
  page_content : String
  metadata : List (String × String)
deriving DecidableEq, Repr

/-- State of services/vectorstore_service.py VectorStoreService.
The field vectorstore_cache embeds the Python attribute self._vectorstore;
a Chroma collection handle is modelled by the list of Document entries it
holds (none = the attribute is None, no collection handle in this process). -/
structure VectorStoreService where
  collection_name : String
  vectorstore_cache : Option (List Document)
deriving DecidableEq, Repr

/-- VectorStoreService.create_empty_vectorstore: builds a fresh empty Chroma
collection, stores it in self._vectorstore and returns it. -/
def VectorStoreService.create_empty_vectorstore (s : VectorStoreService) :
    VectorStoreService × List Document :=
  ({ s with vectorstore_cache := some [] }, [])

/-- The VectorStoreService.vectorstore property: returns the cached handle, and
when self._vectorstore is None it first creates an empty vector store via
create_empty_vectorstore. -/
def VectorStoreService.vectorstoreProp (s : VectorStoreService) :
    VectorStoreService × List Document :=
  match s.vectorstore_cache with
  | some vs => (s, vs)
  | none => s.create_empty_vectorstore

/-- VectorStoreService.exists: returns self._vectorstore is not None. -/
def VectorStoreService.existsColl (s : VectorStoreService) : Bool :=
  s.vectorstore_cache.isSome

/-- Python str.strip() yields the empty (falsy) string exactly when every
character is whitespace; this is that test. -/
def isBlank (s : String) : Bool :=
  s.data.all (fun c => c.isWhitespace)

/-- The indices of documents whose page content is blank, as computed in
VectorStoreService.create_from_documents:
[i for i, d in enumerate(documents) if not d.page_content.strip()]. -/
def emptyIndices (docs : List Document) : List Nat :=
  ((docs.enum).filter (fun p => isBlank p.2.page_content)).map (fun p => p.1)

/-- VectorStoreService.create_from_documents: logs a warning holding the first
ten empty-content indices when there are any (the Python slice
empty_docs[:10]), then builds the collection from the documents and caches it.
The second component models the warning log: some positions when the
empty-content warning is emitted, none when it is not. -/
def VectorStoreService.create_from_documents (s : VectorStoreService)
    (documents : List Document) : VectorStoreService × Option (List Nat) :=
  let empty_docs := emptyIndices documents
  let warn := if empty_docs.isEmpty then none else some (empty_docs.take 10)
  ({ s with vectorstore_cache := some documents }, warn)

/-- Result of VectorStoreService.add_documents: the updated service state, the
ids Chroma assigned to the new entries (modelled as their positions in the
collection), and the empty-content warning log of the call (the source method
logs only info/debug lines, so this is always none). -/
structure AddResult where
  state : VectorStoreService
  ids : List Nat
  warn : Option (List Nat)
deriving DecidableEq, Repr

/-- VectorStoreService.add_documents: reads the vectorstore property (which
auto-creates an empty collection when self._vectorstore is None) and appends
the documents to it, returning the assigned ids in input order. -/
def VectorStoreService.add_documents (s : VectorStoreService)
    (documents : List Document) : AddResult :=
  let (s1, vs) := s.vectorstoreProp
  { state := { s1 with vectorstore_cache := some (vs ++ documents) }
    ids := (List.range documents.length).map (fun i => vs.length + i)
    warn := none }

/-- Environment for services/document_service.py: what the PyPDFLoader and
BSHTMLLoader library calls return for each file path, an error value standing
for a raised extraction exception. -/
structure LoaderEnv where
  loadPdf : String → Except String (List Document)
  loadHtml : String → Except String (List Document)

/-- Python str.endswith over the character sequences of the strings. -/
def pyEndsWith (s suffix : String) : Bool :=
  suffix.data.isSuffixOf s.data

/-- One iteration of the loop in DocumentService.load_documents: dispatch on
the file extension, extend with the loaded documents on success, and on an
unsupported extension or a caught exception contribute nothing. -/
def loadOne (env : LoaderEnv) (file_path : String) : List Document :=
  if pyEndsWith file_path ".pdf" then
    match env.loadPdf file_path with
    | Except.ok ds => ds
    | Except.error _ => []
  else if pyEndsWith file_path ".html" then
    match env.loadHtml file_path with
    | Except.ok ds => ds
    | Except.error _ => []
  else []

/-- DocumentService.load_documents over a list of file paths: the loop
accumulating documents across files, skipping failures and unsupported
extensions. -/
def load_documents (env : LoaderEnv) (file_paths : List String) : List Document :=
  file_paths.foldl (fun documents p => documents ++ loadOne env p) []

/-- True when load_documents gets nothing from this path: the extension is
unsupported, or the dispatched loader raised. -/
def fileSkipped (env : LoaderEnv) (file_path : String) : Prop :=
  (pyEndsWith file_path ".pdf" ∧ ∃ e, env.loadPdf file_path = Except.error e) ∨
  (¬ pyEndsWith file_path ".pdf" ∧ pyEndsWith file_path ".html" ∧
    ∃ e, env.loadHtml file_path = Except.error e) ∨
  (¬ pyEndsWith file_path ".pdf" ∧ ¬ pyEndsWith file_path ".html")

/-- Similarity model for the Chroma / langchain search calls: query-to-document
and document-to-document similarity scores and the MMR lambda multiplier. -/
structure SimModel where
  qsim : String → Document → ℚ
  dsim : Document → Document → ℚ
  lambdaMult : ℚ

/-- Insert a document into a list sorted by descending score, keeping earlier
elements first on ties. -/
def insertDesc (f : Document → ℚ) (d : Document) : List Document → List Document
  | [] => [d]
  | x :: xs => if f x < f d then d :: x :: xs else x :: insertDesc f d xs

/-- Sort documents by descending score, stable (ties keep input order). -/
def sortDesc (f : Document → ℚ) : List Document → List Document
  | [] => []
  | x :: xs => insertDesc f x (sortDesc f xs)

/-- Modelled library behaviour: Chroma similarity search returns the k entries
of the collection most similar to the query, in descending similarity order. -/
def similaritySearch (m : SimModel) (store : List Document) (query : String)
    (k : Nat) : List Document :=
  (sortDesc (m.qsim query) store).take k

/-- Highest similarity of d to any already-selected document (0 when none is
selected yet). -/
def maxSimTo (m : SimModel) (selected : List Document) (d : Document) : ℚ :=
  (selected.map (fun s => m.dsim s d)).foldr max 0

/-- The MMR objective: relevance to the query minus redundancy with the
already-selected documents, weighted by the lambda multiplier. -/
def mmrScore (m : SimModel) (query : String) (selected : List Document)
    (d : Document) : ℚ :=
  m.lambdaMult * m.qsim query d - (1 - m.lambdaMult) * maxSimTo m selected d

/-- First document of the list attaining the maximal score (none on an empty
list). -/
def argmaxBy (f : Document → ℚ) : List Document → Option Document
  | [] => none
  | x :: xs =>
    match argmaxBy f xs with
    | none => some x
    | some y => if f x < f y then some y else some x

/-- Modelled library behaviour: the greedy MMR selection loop — repeatedly
pick a candidate maximizing the MMR objective against the already-selected
documents, up to k picks. -/
def mmrSelect (m : SimModel) (query : String) :
    Nat → List Document → List Document → List Document
  | 0, _, _ => []
  | k + 1, selected, candidates =>
    match argmaxBy (mmrScore m query selected) candidates with
    | none => []
    | some d => d :: mmrSelect m query k (selected ++ [d]) (candidates.erase d)

/-- Modelled library behaviour: the candidate pool MMR search starts from —
the fetch_k entries of the collection most similar to the query. -/
def mmrPool (m : SimModel) (query : String) (store : List Document)
    (fetch_k : Nat) : List Document :=
  (sortDesc (m.qsim query) store).take fetch_k

/-- Modelled library behaviour: MMR search — fetch the fetch_k most similar
entries as the candidate pool, then greedily select k of them by the MMR
objective. -/
def mmrSearch (m : SimModel) (store : List Document) (query : String)
    (k fetch_k : Nat) : List Document :=
  mmrSelect m query k [] (mmrPool m query store fetch_k)

/-- Outcome of RetrievalService.retrieve: the returned documents or the raised
ValueError message, together with how many search calls were made against the
vector index. -/
structure RetrieveOutcome where
  result : Except String (List Document)
  calls : Nat
deriving Repr

/-- The ValueError message raised by RetrievalService.retrieve for an unknown
strategy. -/
def unknownStrategyMsg (strategy : String) : String :=
  "Unknown strategy: " ++ strategy ++ ". Use \x27similarity\x27 or \x27mmr\x27"

/-- RetrievalService.retrieve: dispatch on the strategy string; similarity uses
a top-k retriever, mmr uses a retriever with fetch_k = k * 2, and any other
strategy raises ValueError before any retrieval is performed. -/
def retrieve (m : SimModel) (store : List Document) (query : String)
    (strategy : String) (k : Nat) : RetrieveOutcome :=
  if strategy = "similarity" then
    { result := Except.ok (similaritySearch m store query k), calls := 1 }
  else if strategy = "mmr" then
    { result := Except.ok (mmrSearch m store query k (k * 2)), calls := 1 }
  else
    { result := Except.error (unknownStrategyMsg strategy), calls := 0 }

/-- format_docs from chains/rag_chain.py: join the page contents of the
retrieved documents with a blank-line separator. -/
def format_docs (docs : List Document) : String :=
  String.intercalate "\n\n" (docs.map (fun d => d.page_content))

/-- The default Portuguese system prompt of create_rag_chain. -/
def default_system_prompt : String :=
  "Você é um assistente de leitura de documentos de maquinas industriais. Use as seguintes informações do contexto para responder à pergunta. Se a resposta não estiver no contexto, diga que não tem informações suficientes nos documentos fornecidos."

/-- The prompt template of create_rag_chain, instantiated with the context
block and the question. -/
def promptTemplate (system_prompt context question : String) : String :=
  system_prompt ++ "\n\nContexto:\n" ++ context ++ "\n\nPergunta: " ++
    question ++ "\n\nResposta:"

/-- A value produced through some number of retriever invocations; calls counts
how many search calls against the vector index were performed to produce it. -/
structure Tracked (α : Type) where
  val : α
  calls : Nat
deriving Repr

/-- create_rag_chain from chains/rag_chain.py: the returned chain, on each
invocation, runs the retriever on the question, formats the retrieved
documents into the context block, instantiates the prompt and calls the
language model.  The language model is the abstract text-to-text function llm;
system_prompt = none selects the default prompt. -/
def create_rag_chain (llm : String → String)
    (retriever : String → Tracked (List Document))
    (system_prompt : Option String) : String → Tracked String :=
  fun question =>
    let t := retriever question
    let context := format_docs t.val
    { val := llm (promptTemplate (system_prompt.getD default_system_prompt)
        context question)
      calls := t.calls }

/-- Configuration fields of models/config.py RAGConfig that the orchestrator
reads. -/
structure RAGConfig where
  retrieval_strategy : String
  retrieval_k : Nat
  chunk_size : Nat
  chunk_overlap : Nat
deriving Repr

/-- Modelled library behaviour: Chroma.as_retriever with the given search_type
and k — an mmr retriever uses the library default candidate pool, any other
configured type searches by similarity. -/
def asRetrieverSearch (m : SimModel) (store : List Document)
    (search_type : String) (k : Nat) (query : String) : List Document :=
  if search_type = "mmr" then mmrSearch m store query k 20
  else similaritySearch m store query k

/-- What RAGService.query_with_sources returns, plus how many search calls
against the session vector index the whole operation performed. -/
structure QueryTrace where
  answer : String
  references : List String
  retrievalCalls : Nat
deriving Repr

/-- RAGService.query_with_sources: build a retriever over the session
collection from the configured strategy and k, invoke it once directly for the
references, then build the RAG chain over the same retriever and invoke the
chain (which runs the retriever again) to generate the answer. -/
def query_with_sources (cfg : RAGConfig) (m : SimModel) (store : List Document)
    (llm : String → String) (question : String) : QueryTrace :=
  let retriever : String → Tracked (List Document) := fun q =>
    { val := asRetrieverSearch m store cfg.retrieval_strategy cfg.retrieval_k q
      calls := 1 }
  let t1 := retriever question
  let references := t1.val.map (fun d => d.page_content)
  let chain := create_rag_chain llm retriever none
  let t2 := chain question
  { answer := t2.val, references := references
    retrievalCalls := t1.calls + t2.calls }

/-- State of services/rag_service.py RAGService: the session id and the
lazily-created vector store service. -/
structure RAGService where
  session_id : String
  vectorstore_service_cache : Option VectorStoreService
deriving DecidableEq, Repr

/-- The RAGService.vectorstore_service property: the cached service, or a fresh
VectorStoreService whose collection name is "session_" followed by the session
id. -/
def RAGService.vectorstoreServiceOf (r : RAGService) : VectorStoreService :=
  match r.vectorstore_service_cache with
  | some v => v
  | none => { collection_name := "session_" ++ r.session_id
              vectorstore_cache := none }

/-- Pipeline stages RAGService.add_documents may run, recorded as events. -/
inductive RagEvent where
  | createEmpty : RagEvent
  | loadFiles : List String → RagEvent
  | splitDocs : RagEvent
  | addChunks : RagEvent
deriving DecidableEq, Repr

/-- RAGService.initialize_vectorstore: on force_rebuild, or when the vector
store service does not yet hold a collection, create an empty vector store;
otherwise touch the existing one. -/
def RAGService.initialize_vectorstore (v : VectorStoreService)
    (force_rebuild : Bool) : VectorStoreService × List RagEvent :=
  if force_rebuild || !v.existsColl then
    ((v.create_empty_vectorstore).1, [RagEvent.createEmpty])
  else ((v.vectorstoreProp).1, [])

/-- RAGService.add_documents: with force_rebuild it only reinitializes the
vector store; otherwise it requires an existing collection (raising ValueError
when there is none), then loads the files, splits them with the splitter from
the configuration, and adds the resulting chunks to the vector store.  The
splitter (RecursiveCharacterTextSplitter.split_documents) is the abstract
function split. -/
def RAGService.add_documents_op (env : LoaderEnv)
    (split : List Document → List Document) (v : VectorStoreService)
    (file_paths : List String) (force_rebuild : Bool) :
    Except String (VectorStoreService × List RagEvent) :=
  if force_rebuild then
    Except.ok (RAGService.initialize_vectorstore v true)
  else if !v.existsColl then
    Except.error "Vector store does not exist. Use initialize_vectorstore() first."
  else
    let new_documents := load_documents env file_paths
    let splits := split new_documents
    Except.ok ((v.add_documents splits).state,
      [RagEvent.loadFiles file_paths, RagEvent.splitDocs, RagEvent.addChunks])

/-- Modelled library behaviour: the process-wide Chroma backend as a map from
collection name to the entries stored under that collection; ingesting under a
session appends to the collection named after that session only. -/
def ingestInto (g : String → List Document) (session_id : String)
    (docs : List Document) : String → List Document :=
  fun c => if c = "session_" ++ session_id then g c ++ docs else g c

/-- Retrieval for a session reads only the collection named after that
session. -/
def sessionRetrieve (m : SimModel) (g : String → List Document)
    (session_id : String) (query : String) (k : Nat) : List Document :=
  similaritySearch m (g ("session_" ++ session_id)) query k

/-- Python truthiness of an optional string (None and the empty string are
falsy). -/
def pyTruthy : Option String → Bool
  | some s => !(s = "")
  | none => false

/-- The Python expression a or b on optional strings: a when truthy, else b. -/
def pyOrStr (a b : Option String) : Option String :=
  if pyTruthy a then a else b

/-- A constructed langchain chat model instance, as built by
models/llm_factory.py get_llm. -/
inductive LLMInstance where
  | chatGroq : String → ℚ → String → LLMInstance
  | chatGoogleGenerativeAI : String → ℚ → String → LLMInstance
  | chatOllama : String → ℚ → LLMInstance
deriving DecidableEq, Repr

/-- models/llm_factory.py get_llm: dispatch on the provider string; groq and
gemini resolve a credential from the explicit api_key argument or environment
variables and raise ValueError when none is available; ollama needs no
credential; any other provider raises ValueError.  getenv models
os.getenv. -/
def get_llm (getenv : String → Option String) (provider model : String)
    (temperature : ℚ) (api_key : Option String) : Except String LLMInstance :=
  if provider = "groq" then
    let key := pyOrStr api_key (getenv "GROQ_API_KEY")
    if !pyTruthy key then
      Except.error "Groq API key is required. Pass api_key or set GROQ_API_KEY env var."
    else Except.ok (LLMInstance.chatGroq model temperature (key.getD ""))
  else if provider = "gemini" then
    let key := pyOrStr (pyOrStr api_key (getenv "GEMINI_API_KEY"))
      (getenv "GOOGLE_API_KEY")
    if !pyTruthy key then
      Except.error "Gemini API key is required. Pass api_key or set GEMINI_API_KEY env var."
    else Except.ok (LLMInstance.chatGoogleGenerativeAI model temperature (key.getD ""))
  else if provider = "ollama" then
    Except.ok (LLMInstance.chatOllama model temperature)
  else
    Except.error ("Unknown provider: " ++ provider)

/-- A concrete similarity model for evaluating the retrieval pipeline on small
inputs: query relevance is the content length, pairwise similarity is 0 and
the MMR lambda multiplier is one half. -/
def simModelEx : SimModel :=
  { qsim := fun _ d => (d.page_content.length : ℚ)
    dsim := fun _ _ => 0
    lambdaMult := 1 / 2 }

/-- A concrete two-entry collection. -/
def storeEx : List Document :=
  [{ page_content := "aa", metadata := [] }, { page_content := "b", metadata := [] }]

/-- A loader environment in which every extraction call raises. -/
def loaderEnvFail : LoaderEnv :=
  { loadPdf := fun _ => Except.error "extraction failed"
    loadHtml := fun _ => Except.error "extraction failed" }

/- Helper lemmas (shared across the claim theorems below). -/

/-- Appending a fixed prefix to strings is injective. -/
theorem string_append_left_cancel {p a b : String} (h : p ++ a = p ++ b) :
    a = b := by
  apply String.ext
  have h2 := congrArg String.data h
  rw [String.data_append, String.data_append] at h2
  exact List.append_cancel_left h2

/-- insertDesc grows the list by one element. -/
theorem length_insertDesc (f : Document → ℚ) (d : Document) (l : List Document) :
    (insertDesc f d l).length = l.length + 1 := by
  induction l with
  | nil => rfl
  | cons x xs ih =>
    simp only [insertDesc]
    split <;> simp [ih]

/-- sortDesc preserves length. -/
theorem length_sortDesc (f : Document → ℚ) (l : List Document) :
    (sortDesc f l).length = l.length := by
  induction l with
  | nil => rfl
  | cons x xs ih => simp [sortDesc, length_insertDesc, ih]

/-- Accumulating folds of list-appends flatten the mapped lists in order. -/
theorem foldl_append_eq_append_flatten (f : String → List Document)
    (paths : List String) (acc : List Document) :
    paths.foldl (fun documents p => documents ++ f p) acc =
      acc ++ (paths.map f).flatten := by
  induction paths generalizing acc with
  | nil => simp
  | cons p ps ih => simp [List.foldl_cons, ih]

/-- A skipped file contributes no documents. -/
theorem loadOne_eq_nil_of_fileSkipped {env : LoaderEnv} {p : String}
    (h : fileSkipped env p) : loadOne env p = [] := by
  rcases h with ⟨hpdf, e, he⟩ | ⟨hnp, hh, e, he⟩ | ⟨hnp, hnh⟩ <;>
    simp [loadOne, *]

/-- argmaxBy returns an element of the list. -/
theorem argmaxBy_mem {f : Document → ℚ} :
    ∀ {l : List Document} {d : Document}, argmaxBy f l = some d → d ∈ l := by
  intro l
  induction l with
  | nil => intro d h; simp [argmaxBy] at h
  | cons x xs ih =>
    intro d h
    simp only [argmaxBy] at h
    cases hx : argmaxBy f xs with
    | none => rw [hx] at h; cases h; exact List.mem_cons_self x xs
    | some y =>
      rw [hx] at h
      dsimp only at h
      by_cases hc : f x < f y
      · rw [if_pos hc] at h
        cases h
        exact List.mem_cons_of_mem x (ih hx)
      · rw [if_neg hc] at h
        cases h
        exact List.mem_cons_self x xs

/-- argmaxBy returns none only on the empty list. -/
theorem argmaxBy_eq_none {f : Document → ℚ} :
    ∀ {l : List Document}, argmaxBy f l = none → l = [] := by
  intro l h
  cases l with
  | nil => rfl
  | cons x xs =>
    simp only [argmaxBy] at h
    cases hx : argmaxBy f xs with
    | none => rw [hx] at h; cases h
    | some y => rw [hx] at h; by_cases hc : f x < f y <;> simp [hc] at h

/-- argmaxBy returns a maximizer of the score. -/
theorem argmaxBy_le {f : Document → ℚ} :
    ∀ {l : List Document} {d : Document}, argmaxBy f l = some d →
      ∀ x ∈ l, f x ≤ f d := by
  intro l
  induction l with
  | nil => intro d _ x hx; cases hx
  | cons a as ih =>
    intro d h x hx
    simp only [argmaxBy] at h
    cases ha : argmaxBy f as with
    | none =>
      rw [ha] at h
      cases h
      have : as = [] := argmaxBy_eq_none ha
      subst this
      rcases List.mem_singleton.mp hx with rfl
      exact le_refl _
    | some y =>
      rw [ha] at h
      dsimp only at h
      by_cases hc : f a < f y
      · rw [if_pos hc] at h
        cases h
        rcases List.mem_cons.mp hx with rfl | hmem
        · exact le_of_lt hc
        · exact ih ha x hmem
      · rw [if_neg hc] at h
        cases h
        rcases List.mem_cons.mp hx with rfl | hmem
        · exact le_refl _
        · exact le_trans (ih ha x hmem) (le_of_not_lt hc)

/-- The greedy MMR loop selects min k (number of candidates) documents. -/
theorem length_mmrSelect (m : SimModel) (q : String) :
    ∀ (k : Nat) (sel cands : List Document),
      (mmrSelect m q k sel cands).length = min k cands.length := by
  intro k
  induction k with
  | zero => intro sel cands; simp [mmrSelect]
  | succ k ih =>
    intro sel cands
    simp only [mmrSelect]
    cases h : argmaxBy (mmrScore m q sel) cands with
    | none =>
      have : cands = [] := argmaxBy_eq_none h
      subst this
      simp
    | some d =>
      have hmem : d ∈ cands := argmaxBy_mem h
      have hpos : 0 < cands.length := List.length_pos.mpr (List.ne_nil_of_mem hmem)
      have herase : (cands.erase d).length = cands.length - 1 := by
        rw [List.length_erase]
        simp [hmem]
      simp only [List.length_cons, ih]
      rw [herase]
      omega

/-- Every document the greedy MMR loop selects comes from the candidates. -/
theorem mmrSelect_subset (m : SimModel) (q : String) :
    ∀ (k : Nat) (sel cands : List Document),
      ∀ d ∈ mmrSelect m q k sel cands, d ∈ cands := by
  intro k
  induction k with
  | zero => intro sel cands d hd; simp [mmrSelect] at hd
  | succ k ih =>
    intro sel cands d hd
    simp only [mmrSelect] at hd
    cases h : argmaxBy (mmrScore m q sel) cands with
    | none => rw [h] at hd; cases hd
    | some a =>
      rw [h] at hd
      rcases List.mem_cons.mp hd with rfl | hmem
      · exact argmaxBy_mem h
      · exact List.erase_subset a cands (ih _ _ d hmem)

/-- The first document the greedy MMR loop picks is the argmax of the MMR
objective over the candidates. -/
theorem mmrSelect_head (m : SimModel) (q : String) (k : Nat)
    (sel cands : List Document) (d : Document)
    (h : (mmrSelect m q (k + 1) sel cands).head? = some d) :
    argmaxBy (mmrScore m q sel) cands = some d := by
  simp only [mmrSelect] at h
  cases ha : argmaxBy (mmrScore m q sel) cands with
  | none => rw [ha] at h; cases h
  | some a => rw [ha] at h; cases h; rfl

/-- Python or on optional strings is truthy exactly when one operand is. -/
theorem pyTruthy_pyOrStr (a b : Option String) :
    pyTruthy (pyOrStr a b) = (pyTruthy a || pyTruthy b) := by
  by_cases h : pyTruthy a = true <;> simp [pyOrStr, h]

/-- Flattening a list of empty lists gives the empty list. -/
theorem flatten_map_nil (l : List String) :
    (l.map (fun _ => ([] : List Document))).flatten = [] := by
  induction l with
  | nil => rfl
  | cons p ps ih => simp [ih]

/- Claim theorems. -/

/-- C1: on a query, RAGService.query_with_sources performs two retrieval calls
against the session vector index, not one — the retriever is invoked once
directly for the references and a second time inside the RAG chain for the
prompt context. -/
theorem query_with_sources_performs_two_retrievals (cfg : RAGConfig)
    (m : SimModel) (store : List Document) (llm : String → String)
    (question : String) :
    (query_with_sources cfg m store llm question).retrievalCalls = 2 := rfl

/-- C2: VectorStoreService.add_documents on a service whose collection was
never initialized does not fail; it silently creates an empty collection and
inserts the documents, returning their ids. -/
theorem add_documents_uninitialized_auto_creates :
    (VectorStoreService.add_documents ⟨"c", none⟩
        [⟨"hello", []⟩]).state.vectorstore_cache = some [⟨"hello", []⟩] ∧
    (VectorStoreService.add_documents ⟨"c", none⟩ [⟨"hello", []⟩]).ids = [0] :=
  ⟨rfl, rfl⟩

/-- C3: distinct session ids give distinct collection names (the name is
"session_" followed by the id), and ingesting documents under one session
leaves retrieval against any other session unchanged. -/
theorem session_collections_distinct_and_isolated (a b : String) (hab : a ≠ b) :
    (RAGService.vectorstoreServiceOf ⟨a, none⟩).collection_name ≠
      (RAGService.vectorstoreServiceOf ⟨b, none⟩).collection_name ∧
    ∀ (m : SimModel) (g : String → List Document) (docs : List Document)
      (q : String) (k : Nat),
      sessionRetrieve m (ingestInto g a docs) b q k = sessionRetrieve m g b q k := by
  have hname : ("session_" ++ b : String) ≠ ("session_" ++ a : String) := by
    intro h
    exact hab (string_append_left_cancel h).symm
  constructor
  · show ("session_" ++ a : String) ≠ ("session_" ++ b : String)
    intro h
    exact hab (string_append_left_cancel h)
  · intro m g docs q k
    simp [sessionRetrieve, ingestInto, hname]

/-- C3 witness: sessions "A" and "B" get the distinct collection names
"session_A" and "session_B". -/
theorem session_collections_distinct_witness :
    (RAGService.vectorstoreServiceOf ⟨"A", none⟩).collection_name ≠
      (RAGService.vectorstoreServiceOf ⟨"B", none⟩).collection_name :=
  (session_collections_distinct_and_isolated "A" "B" (by decide)).1

/-- C4: DocumentService.load_documents returns the concatenation, in input
order, of the documents each file contributes (failures and unsupported
extensions contributing nothing), and returns the empty list when every file
fails or is unsupported. -/
theorem load_documents_concatenates_in_order (env : LoaderEnv)
    (file_paths : List String) :
    load_documents env file_paths = (file_paths.map (loadOne env)).flatten ∧
    ((∀ p ∈ file_paths, fileSkipped env p) → load_documents env file_paths = []) := by
  have h1 : load_documents env file_paths = (file_paths.map (loadOne env)).flatten := by
    simpa using foldl_append_eq_append_flatten (loadOne env) file_paths []
  refine ⟨h1, fun hall => ?_⟩
  rw [h1]
  have h2 : file_paths.map (loadOne env) =
      file_paths.map (fun _ => ([] : List Document)) := by
    apply List.map_congr_left
    intro p hp
    exact loadOne_eq_nil_of_fileSkipped (hall p hp)
  rw [h2, flatten_map_nil]

/-- C4 witness: with a loader environment in which every extraction raises,
loading a pdf and an unsupported file yields the empty document list. -/
theorem load_documents_all_fail_witness :
    load_documents loaderEnvFail ["a.pdf", "b.txt"] = [] :=
  (load_documents_concatenates_in_order loaderEnvFail ["a.pdf", "b.txt"]).2 (by
    intro p hp
    simp only [List.mem_cons, List.not_mem_nil, or_false] at hp
    rcases hp with rfl | rfl
    · exact Or.inl ⟨by decide, "extraction failed", rfl⟩
    · exact Or.inr (Or.inr ⟨by decide, by decide⟩))

/-- C5: RetrievalService.retrieve with a strategy other than "similarity" or
"mmr" performs no search call and raises a ValueError whose message names the
offending strategy and both valid options. -/
theorem retrieve_unknown_strategy_fails_before_search (m : SimModel)
    (store : List Document) (query strategy : String) (k : Nat)
    (hs : strategy ≠ "similarity") (hm : strategy ≠ "mmr") :
    (retrieve m store query strategy k).calls = 0 ∧
    (retrieve m store query strategy k).result =
      Except.error (unknownStrategyMsg strategy) ∧
    (∃ x y, unknownStrategyMsg strategy = x ++ strategy ++ y) ∧
    (∃ x y, unknownStrategyMsg strategy = x ++ "similarity" ++ y) ∧
    (∃ x y, unknownStrategyMsg strategy = x ++ "mmr" ++ y) := by
  refine ⟨by simp [retrieve, hs, hm], by simp [retrieve, hs, hm], ?_, ?_, ?_⟩
  · exact ⟨"Unknown strategy: ", ". Use \x27similarity\x27 or \x27mmr\x27", rfl⟩
  · refine ⟨"Unknown strategy: " ++ strategy ++ ". Use \x27",
      "\x27 or \x27mmr\x27", ?_⟩
    simp only [unknownStrategyMsg, String.append_assoc]
    exact congrArg (fun t => "Unknown strategy: " ++ (strategy ++ t))
      (show (". Use \x27similarity\x27 or \x27mmr\x27" : String) =
        ". Use \x27" ++ ("similarity" ++ "\x27 or \x27mmr\x27") by decide)
  · refine ⟨"Unknown strategy: " ++ strategy ++ ". Use \x27similarity\x27 or \x27",
      "\x27", ?_⟩
    simp only [unknownStrategyMsg, String.append_assoc]
    exact congrArg (fun t => "Unknown strategy: " ++ (strategy ++ t))
      (show (". Use \x27similarity\x27 or \x27mmr\x27" : String) =
        ". Use \x27similarity\x27 or \x27" ++ ("mmr" ++ "\x27") by decide)

/-- C5 witness: retrieve with strategy "bogus" performs zero search calls. -/
theorem retrieve_unknown_strategy_witness :
    (retrieve simModelEx storeEx "q" "bogus" 3).calls = 0 :=
  (retrieve_unknown_strategy_fails_before_search simModelEx storeEx "q" "bogus" 3
    (by decide) (by decide)).1

/-- C6: VectorStoreService.existsColl reports whether the collection was
initialized in this process, independently of its entries: false on a fresh
service, true whenever a collection handle is cached (whatever its entries),
and true right after create_empty_vectorstore even though the collection is
empty — and after create_from_documents as well. -/
theorem existsColl_reports_initialization (name : String)
    (entries : List Document) (s : VectorStoreService) :
    VectorStoreService.existsColl ⟨name, none⟩ = false ∧
    VectorStoreService.existsColl ⟨name, some entries⟩ = true ∧
    (s.create_empty_vectorstore).1.existsColl = true ∧
    (s.create_empty_vectorstore).1.vectorstore_cache = some [] ∧
    (s.create_from_documents entries).1.existsColl = true :=
  ⟨rfl, rfl, rfl, rfl, rfl⟩

/-- C7 counterexample: add_documents inserts a chunk with empty text but its
log carries no warning enumerating the empty positions (position 0 here). -/
theorem add_documents_empty_text_no_warning_counterexample :
    (VectorStoreService.add_documents ⟨"c", some []⟩
        [⟨"", []⟩]).state.vectorstore_cache = some [⟨"", []⟩] ∧
    ¬ (emptyIndices [⟨"", []⟩] = [] ∨
        (VectorStoreService.add_documents ⟨"c", some []⟩ [⟨"", []⟩]).warn =
          some (emptyIndices [⟨"", []⟩])) := by
  decide

/-- C7 amended: empty-text chunks are always inserted; create_from_documents
logs a warning with the first ten empty-text positions (all of them when there
are at most ten), while add_documents logs no empty-text warning at all. -/
theorem empty_text_chunks_inserted_with_truncated_warning
    (s : VectorStoreService) (documents : List Document) :
    (s.create_from_documents documents).1.vectorstore_cache = some documents ∧
    (s.create_from_documents documents).2 =
      (if (emptyIndices documents).isEmpty then none
       else some ((emptyIndices documents).take 10)) ∧
    ((emptyIndices documents).length ≤ 10 → emptyIndices documents ≠ [] →
      (s.create_from_documents documents).2 = some (emptyIndices documents)) ∧
    (s.add_documents documents).state.vectorstore_cache =
      some ((s.vectorstoreProp).2 ++ documents) ∧
    (s.add_documents documents).warn = none := by
  refine ⟨rfl, rfl, ?_, ?_, rfl⟩
  · intro hlen hne
    have hemp : (emptyIndices documents).isEmpty = false := by
      simpa [List.isEmpty_iff] using hne
    simp [VectorStoreService.create_from_documents, hemp,
      List.take_of_length_le hlen]
  · cases hv : s.vectorstore_cache <;>
      simp [VectorStoreService.add_documents, VectorStoreService.vectorstoreProp,
        VectorStoreService.create_empty_vectorstore, hv]

/-- C7 amended witness: one empty chunk at position 0 is fully enumerated by
the create_from_documents warning. -/
theorem empty_text_warning_witness :
    (VectorStoreService.create_from_documents ⟨"c", none⟩ [⟨"", []⟩]).2 =
      some [0] := by
  have h := (empty_text_chunks_inserted_with_truncated_warning ⟨"c", none⟩
    [⟨"", []⟩]).2.2.1 (by decide) (by decide)
  rw [h]
  decide

/-- C8: retrieve with strategy "mmr" runs MMR search over the candidate pool of
the fetch_k = k * 2 entries most similar to the query; the pool has exactly
k * 2 entries whenever the collection is at least that large, and the greedy
loop selects min k (pool size) entries, all from the pool, the first being a
maximizer of the MMR objective (relevance balanced against dissimilarity to
the already-selected entries). -/
theorem mmr_retrieval_pool_and_greedy (m : SimModel) (store : List Document)
    (query : String) (k : Nat) (hk : 0 < k) :
    (retrieve m store query "mmr" k).result =
      Except.ok (mmrSelect m query k [] (mmrPool m query store (k * 2))) ∧
    (k * 2 ≤ store.length → (mmrPool m query store (k * 2)).length = k * 2) ∧
    (mmrSelect m query k [] (mmrPool m query store (k * 2))).length =
      min k (mmrPool m query store (k * 2)).length ∧
    (∀ d ∈ mmrSelect m query k [] (mmrPool m query store (k * 2)),
      d ∈ mmrPool m query store (k * 2)) ∧
    (∀ d, (mmrSelect m query k [] (mmrPool m query store (k * 2))).head? = some d →
      d ∈ mmrPool m query store (k * 2) ∧
      ∀ x ∈ mmrPool m query store (k * 2),
        mmrScore m query [] x ≤ mmrScore m query [] d) := by
  refine ⟨by simp [retrieve, mmrSearch], ?_,
    length_mmrSelect m query k [] _, mmrSelect_subset m query k [] _, ?_⟩
  · intro hle
    simp only [mmrPool, List.length_take, length_sortDesc]
    omega
  · intro d hd
    obtain ⟨j, rfl⟩ : ∃ j, k = j + 1 := ⟨k - 1, by omega⟩
    have ha := mmrSelect_head m query j [] _ d hd
    exact ⟨argmaxBy_mem ha, argmaxBy_le ha⟩

/-- C8 witness: with the concrete similarity model and two-entry collection,
k = 1 gives a candidate pool of exactly two entries. -/
theorem mmr_retrieval_witness :
    (mmrPool simModelEx "q" storeEx (1 * 2)).length = 1 * 2 :=
  (mmr_retrieval_pool_and_greedy simModelEx storeEx "q" 1 (by decide)).2.1
    (by decide)

/-- C9: get_llm raises ValueError naming the provider for every provider
outside groq, gemini and ollama; groq and gemini raise ValueError when neither
the explicit api_key nor their environment variables supply a credential, and
succeed when one does; ollama always succeeds with no credential. -/
theorem get_llm_provider_and_credential_resolution
    (getenv : String → Option String) (provider model : String)
    (temperature : ℚ) (api_key : Option String) :
    (provider ≠ "groq" → provider ≠ "gemini" → provider ≠ "ollama" →
      get_llm getenv provider model temperature api_key =
        Except.error ("Unknown provider: " ++ provider) ∧
      ∃ x y, ("Unknown provider: " ++ provider : String) = x ++ provider ++ y) ∧
    (pyTruthy api_key = false → pyTruthy (getenv "GROQ_API_KEY") = false →
      get_llm getenv "groq" model temperature api_key =
        Except.error "Groq API key is required. Pass api_key or set GROQ_API_KEY env var.") ∧
    (pyTruthy api_key = false → pyTruthy (getenv "GEMINI_API_KEY") = false →
      pyTruthy (getenv "GOOGLE_API_KEY") = false →
      get_llm getenv "gemini" model temperature api_key =
        Except.error "Gemini API key is required. Pass api_key or set GEMINI_API_KEY env var.") ∧
    (get_llm getenv "ollama" model temperature api_key =
      Except.ok (LLMInstance.chatOllama model temperature)) ∧
    ((pyTruthy api_key = true ∨ pyTruthy (getenv "GROQ_API_KEY") = true) →
      ∃ inst, get_llm getenv "groq" model temperature api_key = Except.ok inst) ∧
    ((pyTruthy api_key = true ∨ pyTruthy (getenv "GEMINI_API_KEY") = true ∨
        pyTruthy (getenv "GOOGLE_API_KEY") = true) →
      ∃ inst, get_llm getenv "gemini" model temperature api_key = Except.ok inst) := by
  refine ⟨?_, ?_, ?_, ?_, ?_, ?_⟩
  · intro h1 h2 h3
    refine ⟨by simp [get_llm, h1, h2, h3], "Unknown provider: ", "", ?_⟩
    exact (String.append_empty _).symm
  · intro ha hb
    simp [get_llm, pyTruthy_pyOrStr, ha, hb]
  · intro ha hb hc
    simp [get_llm, pyTruthy_pyOrStr, ha, hb, hc]
  · simp [get_llm]
  · intro h
    have ht : pyTruthy (pyOrStr api_key (getenv "GROQ_API_KEY")) = true := by
      rw [pyTruthy_pyOrStr]
      rcases h with h | h <;> simp [h]
    refine ⟨LLMInstance.chatGroq model temperature
      ((pyOrStr api_key (getenv "GROQ_API_KEY")).getD ""), ?_⟩
    simp [get_llm, ht]
  · intro h
    have ht : pyTruthy (pyOrStr (pyOrStr api_key (getenv "GEMINI_API_KEY"))
        (getenv "GOOGLE_API_KEY")) = true := by
      rw [pyTruthy_pyOrStr, pyTruthy_pyOrStr]
      rcases h with h | h | h <;> simp [h]
    refine ⟨LLMInstance.chatGoogleGenerativeAI model temperature
      ((pyOrStr (pyOrStr api_key (getenv "GEMINI_API_KEY"))
        (getenv "GOOGLE_API_KEY")).getD ""), ?_⟩
    simp [get_llm, ht]

/-- C9 witness: resolving the unsupported provider "openai" fails with the
message naming it. -/
theorem get_llm_unknown_provider_witness :
    get_llm (fun _ => none) "openai" "m" 0 none =
      Except.error ("Unknown provider: " ++ "openai") :=
  ((get_llm_provider_and_credential_resolution (fun _ => none) "openai" "m" 0
    none).1 (by decide) (by decide) (by decide)).1

/-- C10: RAGService.add_documents with force_rebuild replaces the collection
with a fresh empty one and returns; the only pipeline event is the
reinitialization — no file is loaded, split or indexed, and the index holds no
entries afterwards. -/
theorem add_documents_force_rebuild_resets (env : LoaderEnv)
    (split : List Document → List Document) (v : VectorStoreService)
    (file_paths : List String) :
    RAGService.add_documents_op env split v file_paths true =
      Except.ok (⟨v.collection_name, some []⟩, [RagEvent.createEmpty]) := rfl

end RagApp
